import Mathlib

/-!
Verification of `throttle-cpu-temp` (src/src/main.rs), a thermal-aware CPU
frequency governor.  The program is embedded shallowly:

* All machine integers in the source are Rust `u64`. They are modelled as
  `Nat` together with explicit wrapping (`% 2^64`) at every arithmetic
  operation, matching release-mode Rust semantics (the source itself relies
  on wrap-around: see the guard comment "need to check if the new frequency
  number wraps around max integer limit" in the decrease closure).
* Filesystem reads are modelled as `Option Nat` inputs (`none` = the file is
  missing/unreadable/non-numeric, `some v` = it parses to `v`).
* `Result`-like fatal termination is modelled by `Except Termination`, where
  `Termination` distinguishes an explicit `process::exit(1)` from a Rust
  panic (an `unwrap()` on `Err`/`None`), which terminates the process with
  the runtime's panic status (101 by default), not with status 1.
* The one floating-point expression, `(DEACCR_RATIO * temp_diff as f64) as u64`
  with `DEACCR_RATIO = 1/4`, is modelled as the Nat division `temp_diff / 4`.
  This is exact whenever `temp_diff < 2^53` (the range in which `f64`
  represents the integer exactly; multiplying by 0.25 only shifts the
  exponent, and the `as u64` cast truncates toward zero). Theorems that
  depend on the penalty's value carry a hypothesis keeping `temp_diff`
  inside this exact regime.
-/

/-- `2^64`, the modulus of Rust `u64` arithmetic, as a numeral. -/
def U64MOD : Nat := 18446744073709551616

/-- `STEP_FREQ` from main.rs: the 100 MHz (in kHz) frequency step. -/
def STEP_FREQ : Nat := 100000

/-- Wrapping `u64` addition (release-mode `+`). Arguments are assumed `< 2^64`. -/
def u64add (a b : Nat) : Nat := (a + b) % U64MOD

/-- Wrapping `u64` subtraction (release-mode `-`). Arguments are assumed `< 2^64`. -/
def u64sub (a b : Nat) : Nat := (a + U64MOD - b) % U64MOD

/-- Wrapping `u64` multiplication (release-mode `*`). Arguments are assumed `< 2^64`. -/
def u64mul (a b : Nat) : Nat := (a * b) % U64MOD

/-- How the process terminates on a fatal condition: an explicit
`process::exit(1)`, or a Rust panic (`unwrap()` on a failed operation). -/
inductive Termination where
  | exit1    : Termination
  | panicked : Termination
deriving DecidableEq, Repr

/-- The exit status the OS observes for each termination kind: `process::exit(1)`
yields 1; a panic in the main thread makes the Rust runtime exit with 101. -/
def Termination.code : Termination → Nat
  | .exit1 => 1
  | .panicked => 101

/-- `parse_int_file` from main.rs: opens a file and parses its trimmed content
as `u64`, calling `.unwrap()` on both steps — so a missing, unreadable or
non-numeric file causes a panic, not `process::exit(1)`.  The input models the
parsed content of the file (`none` = open or parse failed). -/
def parse_int_file (content : Option Nat) : Except Termination Nat :=
  match content with
  | none => .error .panicked
  | some v => .ok v

/-- `main`'s argument handling from main.rs: if `args.len() != 2` it logs usage
and calls `process::exit(1)`; otherwise it parses `args[1]` as `u64` and calls
`process::exit(1)` on a parse error.  `nargs` models `args.len()` and `arg`
models the parse result of `args[1]`. -/
def parseArgs (nargs : Nat) (arg : Option Nat) : Except Termination Nat :=
  if nargs ≠ 2 then .error .exit1
  else
    match arg with
    | none => .error .exit1
    | some x => .ok x

/-- The loop body of `get_temp` from main.rs: walks the candidate sensor list,
skipping absent files, and keeps the largest normalized (`/ 1000`) reading,
starting from the accumulator `max_temp`.  A list element `none` models a
candidate path that does not exist; `some v` models an existing file whose
raw reading (in thousandths of a degree) is `v`. -/
def getTempLoop (readings : List (Option Nat)) (max_temp : Nat) : Nat :=
  match readings with
  | [] => max_temp
  | none :: rest => getTempLoop rest max_temp
  | some v :: rest =>
      let sensor_temp := v / 1000
      getTempLoop rest (if max_temp < sensor_temp then sensor_temp else max_temp)

/-- `get_temp` from main.rs: folds the candidate readings starting from 0 and
calls `process::exit(1)` when the resulting maximum is 0. -/
def get_temp (readings : List (Option Nat)) : Except Termination Nat :=
  let m := getTempLoop readings 0
  if m = 0 then .error .exit1 else .ok m

/-- The maximum normalized reading across the *present* sources, written
directly from the spec's words ("returns the maximum across all present
sources", each reading "normalized to whole degrees"), for comparison with
the source's fold. -/
def maxOfPresent (readings : List (Option Nat)) : Nat :=
  (readings.filterMap id).foldr (fun v acc => Nat.max (v / 1000) acc) 0

/-- The per-CPU write loop of `set_freq` from main.rs: for each CPU index it
creates `scaling_max_freq` and writes the frequency, `.unwrap()`ing both — the
first failing write panics.  `writeOk c` models whether the create+write for
CPU `c` succeeds; on success the performed writes `(cpu, freq)` are returned. -/
def setFreqLoop (cpus : List Nat) (writeOk : Nat → Bool) (freq : Nat) :
    Except Termination (List (Nat × Nat)) :=
  match cpus with
  | [] => .ok []
  | c :: rest =>
      if writeOk c then
        match setFreqLoop rest writeOk freq with
        | .ok ws => .ok ((c, freq) :: ws)
        | .error e => .error e
      else .error .panicked

/-- `set_freq` from main.rs: writes `freq` to every logical CPU's
`scaling_max_freq` file (CPUs `0 .. num_cpus`). -/
def set_freq (ncpus : Nat) (writeOk : Nat → Bool) (freq : Nat) :
    Except Termination (List (Nat × Nat)) :=
  setFreqLoop (List.range ncpus) writeOk freq

/-- The mutation performed by the decrease closure in main.rs (lines 137-152),
on the frequency value `freq` it holds the lock for, with `temp`/`max_temp`
captured at scheduling time and `min_freq`/`max_freq` the startup bounds:

    **cur_freq -= STEP_FREQ;
    let temp_diff = temp - max_temp;
    if temp_diff > 0 {
        let new_freq = STEP_FREQ * ((DEACCR_RATIO * temp_diff as f64) as u64);
        if (**cur_freq - new_freq) > max_freq { **cur_freq = min_freq; }
        else { **cur_freq -= new_freq; }
    }
    if **cur_freq < min_freq { **cur_freq = min_freq; }

All subtractions are wrapping `u64` operations; the float penalty is modelled
as `temp_diff / 4` (exact for `temp_diff < 2^53`, see the header comment). -/
def decreaseAdjust (freq temp max_temp min_freq max_freq : Nat) : Nat :=
  let f1 := u64sub freq STEP_FREQ
  let temp_diff := u64sub temp max_temp
  let f2 :=
    if 0 < temp_diff then
      let new_freq := u64mul STEP_FREQ (temp_diff / 4)
      if max_freq < u64sub f1 new_freq then min_freq else u64sub f1 new_freq
    else f1
  if f2 < min_freq then min_freq else f2

/-- The mutation performed by the increase closure in main.rs (lines 166-171):

    **cur_freq += STEP_FREQ;
    if **cur_freq > max_freq { **cur_freq = max_freq; }

with wrapping `u64` addition. -/
def increaseAdjust (freq max_freq : Nat) : Nat :=
  let f1 := u64add freq STEP_FREQ
  if max_freq < f1 then max_freq else f1

/-- The decrease algorithm transcribed from the words of the specification
("first subtracts one StepSize unconditionally, then — since
overshoot = temperature − threshold > 0 — computes
penalty = StepSize × floor(SpikeRatio × overshoot) and subtracts it, except
that when that subtraction would wrap around as an unsigned quantity to a
value above max it sets the frequency directly to min; finally the result is
clamped up to at least min"), to be compared with `decreaseAdjust` taken from
the source. -/
def decreaseSpec (freq temp max_temp min_freq max_freq : Nat) : Nat :=
  let s1 := u64sub freq STEP_FREQ
  let overshoot := temp - max_temp
  let penalty := u64mul STEP_FREQ (overshoot / 4)
  let s2 := if max_freq < u64sub s1 penalty then min_freq else u64sub s1 penalty
  Nat.max min_freq s2

/-- What a tick of the control loop decides to schedule. -/
inductive Decision where
  | decrease : Decision
  | increase : Decision
  | hold     : Decision
deriving DecidableEq, Repr

/-- The branch structure of one tick of the loop in main.rs:

    if temp > max_temp && *FREQUENCY.lock().unwrap() > min_freq      { decrease }
    else if temp < (max_temp - 5) && *FREQUENCY.lock().unwrap() < max_freq { increase }

where `max_temp - 5` is a wrapping `u64` subtraction. -/
def tickDecision (temp max_temp freq min_freq max_freq : Nat) : Decision :=
  if max_temp < temp ∧ min_freq < freq then .decrease
  else if temp < u64sub max_temp 5 ∧ freq < max_freq then .increase
  else .hold

/-- The whole decrease task from main.rs (lines 133-158): it try-locks
`FREQUENCY` at spawn time; only if the lock was acquired does it mutate the
frequency and call `set_freq`.  The result is the frequency value afterwards
and the list of actuator invocations (arguments passed to `set_freq`). -/
def decreaseTask (acquired : Bool) (freq temp max_temp min_freq max_freq : Nat) :
    Nat × List Nat :=
  if acquired then
    let f := decreaseAdjust freq temp max_temp min_freq max_freq
    (f, [f])
  else (freq, [])

/-- The whole increase task from main.rs (lines 162-176), analogous to
`decreaseTask`. -/
def increaseTask (acquired : Bool) (freq max_freq : Nat) : Nat × List Nat :=
  if acquired then
    let f := increaseAdjust freq max_freq
    (f, [f])
  else (freq, [])

/-- The startup sequence of `main` (lines 122-126): read the minimum bound,
read the maximum bound, initialize the `FREQUENCY` lazy-static (which itself
calls `max_frequency()`, i.e. parses the max-frequency file again), and write
that initial frequency to every CPU via `set_freq`.  No temperature is read:
the model takes none.  Returns the initial shared frequency and the performed
per-CPU writes. -/
def startup (minContent maxContent : Option Nat) (ncpus : Nat)
    (writeOk : Nat → Bool) : Except Termination (Nat × List (Nat × Nat)) :=
  match parse_int_file minContent with
  | .error e => .error e
  | .ok _min_freq =>
      match parse_int_file maxContent with
      | .error e => .error e
      | .ok _max_freq =>
          match parse_int_file maxContent with
          | .error e => .error e
          | .ok freq =>
              match set_freq ncpus writeOk freq with
              | .error e => .error e
              | .ok writes => .ok (freq, writes)

/-! ## Helper lemmas -/

theorem natMax_ite (a b : Nat) : Nat.max a b = if a < b then b else a := by
  rcases Nat.lt_or_ge a b with h | h
  · rw [if_pos h]
    exact Nat.max_eq_right (Nat.le_of_lt h)
  · rw [if_neg (Nat.not_lt.mpr h)]
    exact Nat.max_eq_left h

theorem getTempLoop_eq_max (readings : List (Option Nat)) :
    ∀ a, getTempLoop readings a = Nat.max a (maxOfPresent readings) := by
  induction readings with
  | nil => intro a; simp [getTempLoop, maxOfPresent]
  | cons r rest ih =>
      intro a
      cases r with
      | none =>
          simp only [getTempLoop, maxOfPresent, List.filterMap_cons_none] at *
          exact ih a
      | some v =>
          simp only [getTempLoop, maxOfPresent] at *
          simp only [List.filterMap_cons, id] at *
          simp only [List.foldr_cons]
          rw [ih]
          rw [natMax_ite, natMax_ite, natMax_ite]
          split_ifs <;> omega

theorem foldr_max_zero (l : List Nat) (h : ∀ v ∈ l, v < 1000) :
    l.foldr (fun v acc => Nat.max (v / 1000) acc) 0 = 0 := by
  induction l with
  | nil => rfl
  | cons v rest ih =>
      simp only [List.foldr_cons]
      have hv : v < 1000 := h v (List.mem_cons_self v rest)
      have hr : rest.foldr (fun v acc => Nat.max (v / 1000) acc) 0 = 0 :=
        ih (fun w hw => h w (List.mem_cons_of_mem v hw))
      rw [hr, natMax_ite]
      split_ifs <;> omega

theorem setFreqLoop_all_ok (writeOk : Nat → Bool) (freq : Nat) :
    ∀ cpus : List Nat, (∀ c ∈ cpus, writeOk c = true) →
      setFreqLoop cpus writeOk freq = .ok (cpus.map fun c => (c, freq)) := by
  intro cpus
  induction cpus with
  | nil => intro _; rfl
  | cons c rest ih =>
      intro h
      have hc : writeOk c = true := h c (List.mem_cons_self c rest)
      have hr := ih (fun w hw => h w (List.mem_cons_of_mem c hw))
      simp [setFreqLoop, hc, hr]

theorem setFreqLoop_fail (writeOk : Nat → Bool) (freq : Nat) :
    ∀ cpus : List Nat, (∃ c ∈ cpus, writeOk c = false) →
      setFreqLoop cpus writeOk freq = .error .panicked := by
  intro cpus
  induction cpus with
  | nil => rintro ⟨c, hc, _⟩; exact absurd hc (List.not_mem_nil c)
  | cons c rest ih =>
      rintro ⟨w, hw, hfail⟩
      by_cases hc : writeOk c = true
      · have hwr : w ∈ rest := by
          rcases List.mem_cons.mp hw with h | h
          · subst h; rw [hc] at hfail; exact absurd hfail (by simp)
          · exact h
        have hr := ih ⟨w, hwr, hfail⟩
        simp [setFreqLoop, hc, hr]
      · simp [setFreqLoop, hc]


theorem natMax_zero_left (x : Nat) : Nat.max 0 x = x := by
  rw [natMax_ite]
  split_ifs <;> omega

theorem natMin_ite (a b : Nat) : Nat.min a b = if a < b then a else b := by
  rcases Nat.lt_or_ge a b with h | h
  · rw [if_pos h]
    exact Nat.min_eq_left (Nat.le_of_lt h)
  · rw [if_neg (Nat.not_lt.mpr h)]
    exact Nat.min_eq_right h

/-! ## Claim theorems -/

/-- Claim C1, counterexample: the claim asserts `min ≤ current_frequency ≤ max`
after every completed adjustment, for every starting value in `[min, max]`.
With `min = 2^64 - 150000`, `max = 2^64 - 1` and starting value
`2^64 - 100000` (inside `[min, max]`), the increase mutation's wrapping `u64`
addition `freq + STEP_FREQ` overflows to `0`, which is below `min`, so the
invariant is violated. -/
theorem freq_invariant_counterexample :
    18446744073709401616 ≤ 18446744073709451616 ∧
    18446744073709451616 ≤ 18446744073709551615 ∧
    increaseAdjust 18446744073709451616 18446744073709551615 <
      18446744073709401616 := by
  refine ⟨by norm_num, by norm_num, ?_⟩
  simp only [increaseAdjust, u64add, STEP_FREQ, U64MOD]
  norm_num

/-- Claim C1 (amended): after a completed decrease or increase mutation the
shared frequency lies in `[min_freq, max_freq]`, for every starting value in
`[min_freq, max_freq]`, every captured temperature above the threshold (the
condition under which a decrease task is scheduled) and every threshold,
provided `max_freq < 2^63` so that the increase step cannot overflow `u64`
(the temperature only needs to be a `u64`, i.e. `< 2^64`). -/
theorem freq_invariant_after_adjustment
    (freq temp max_temp min_freq max_freq : Nat)
    (hlo : min_freq ≤ freq) (hhi : freq ≤ max_freq)
    (htemp : max_temp < temp) (htw : temp < 18446744073709551616)
    (hmax : max_freq < 9223372036854775808) :
    (min_freq ≤ decreaseAdjust freq temp max_temp min_freq max_freq ∧
      decreaseAdjust freq temp max_temp min_freq max_freq ≤ max_freq) ∧
    (min_freq ≤ increaseAdjust freq max_freq ∧
      increaseAdjust freq max_freq ≤ max_freq) := by
  constructor
  · simp only [decreaseAdjust, u64sub, u64mul, STEP_FREQ, U64MOD]
    split_ifs <;> omega
  · simp only [increaseAdjust, u64add, STEP_FREQ, U64MOD]
    split_ifs <;> omega

/-- Claim C1 witness: the amended invariant theorem applied at the concrete
state `freq = 2000000`, `temp = 90`, `threshold = 70`, bounds
`[1000000, 3000000]`. -/
theorem freq_invariant_after_adjustment_witness :
    (1000000 ≤ decreaseAdjust 2000000 90 70 1000000 3000000 ∧
      decreaseAdjust 2000000 90 70 1000000 3000000 ≤ 3000000) ∧
    (1000000 ≤ increaseAdjust 2000000 3000000 ∧
      increaseAdjust 2000000 3000000 ≤ 3000000) :=
  freq_invariant_after_adjustment 2000000 90 70 1000000 3000000
    (by norm_num) (by norm_num) (by norm_num) (by norm_num) (by norm_num)

/-- Claim C2: the decrease mutation from the source coincides with the
algorithm as described by the spec (`decreaseSpec`, transcribed from the
claim's words) whenever the captured temperature exceeds the threshold by at
most `2^53` (the regime in which the source's `f64` penalty is the exact
floor); and in the spec's worked example (`threshold = 70`, `temp = 85`,
`STEP_FREQ = 100000`) the total reduction before the final clamp is exactly
`400000`: from `3000000` the result is `3000000 - 400000`, and from `1100000`
the intermediate `700000` is clamped up to `min = 1000000`. -/
theorem decrease_algorithm_matches_spec
    (freq temp max_temp min_freq max_freq : Nat)
    (htemp : max_temp < temp)
    (hexact : temp ≤ max_temp + 9007199254740992) :
    decreaseAdjust freq temp max_temp min_freq max_freq =
      decreaseSpec freq temp max_temp min_freq max_freq ∧
    decreaseAdjust 3000000 85 70 1000000 3200000 = 3000000 - 400000 ∧
    decreaseAdjust 1100000 85 70 1000000 3200000 = 1000000 := by
  refine ⟨?_, by decide, by decide⟩
  simp only [decreaseAdjust, decreaseSpec, u64sub, u64mul, STEP_FREQ, U64MOD]
  rw [natMax_ite]
  split_ifs <;> omega

/-- Claim C2 witness: the equivalence applied at `freq = 3000000`,
`temp = 85`, `threshold = 70`, bounds `[1000000, 3200000]`. -/
theorem decrease_algorithm_matches_spec_witness :
    decreaseAdjust 3000000 85 70 1000000 3200000 =
      decreaseSpec 3000000 85 70 1000000 3200000 ∧
    decreaseAdjust 3000000 85 70 1000000 3200000 = 3000000 - 400000 ∧
    decreaseAdjust 1100000 85 70 1000000 3200000 = 1000000 :=
  decrease_algorithm_matches_spec 3000000 85 70 1000000 3200000
    (by norm_num) (by norm_num)

/-- Claim C4, counterexample: the claim asserts a completed increase
adjustment never decreases the frequency, for every starting frequency.  With
`max = 2^64 - 1` and starting value `2^64 - 50000 ≤ max`, the wrapping `u64`
addition overflows to `50000`, strictly below the starting value. -/
theorem adjustments_monotone_counterexample :
    18446744073709501616 ≤ 18446744073709551615 ∧
    increaseAdjust 18446744073709501616 18446744073709551615 <
      18446744073709501616 := by
  refine ⟨by norm_num, ?_⟩
  simp only [increaseAdjust, u64add, STEP_FREQ, U64MOD]
  norm_num

/-- Claim C4 (amended): a completed decrease mutation never increases the
frequency and a completed increase mutation never decreases it, for every
starting value in `[min_freq, max_freq]`, every threshold, and every captured
temperature above the threshold — provided the values cannot overflow `u64`
arithmetic: `temp < 2^40` and `max_freq < 2^63`. -/
theorem adjustments_monotone
    (freq temp max_temp min_freq max_freq : Nat)
    (hlo : min_freq ≤ freq) (hhi : freq ≤ max_freq)
    (htemp : max_temp < temp) (htw : temp < 1099511627776)
    (hmax : max_freq < 9223372036854775808) :
    decreaseAdjust freq temp max_temp min_freq max_freq ≤ freq ∧
    freq ≤ increaseAdjust freq max_freq := by
  constructor
  · simp only [decreaseAdjust, u64sub, u64mul, STEP_FREQ, U64MOD]
    have h1 : (temp + 18446744073709551616 - max_temp) % 18446744073709551616 =
        temp - max_temp := by omega
    rw [h1]
    have h2 : (100000 * ((temp - max_temp) / 4)) % 18446744073709551616 =
        100000 * ((temp - max_temp) / 4) := by omega
    rw [h2]
    have hP : 100000 * ((temp - max_temp) / 4) ≤ 27487790694400000 := by omega
    rcases Nat.lt_or_ge freq 100000 with hf | hf
    · have e1 : (freq + 18446744073709551616 - 100000) % 18446744073709551616 =
          freq + 18446744073709551616 - 100000 := by omega
      rw [e1]
      have e2 : (freq + 18446744073709551616 - 100000 + 18446744073709551616 -
          100000 * ((temp - max_temp) / 4)) % 18446744073709551616 =
          freq + 18446744073709551616 - 100000 -
            100000 * ((temp - max_temp) / 4) := by omega
      rw [e2]
      split_ifs <;> omega
    · have e1 : (freq + 18446744073709551616 - 100000) % 18446744073709551616 =
          freq - 100000 := by omega
      rw [e1]
      rcases Nat.lt_or_ge (freq - 100000) (100000 * ((temp - max_temp) / 4)) with
        hq | hq
      · have e2 : (freq - 100000 + 18446744073709551616 -
            100000 * ((temp - max_temp) / 4)) % 18446744073709551616 =
            freq - 100000 + 18446744073709551616 -
              100000 * ((temp - max_temp) / 4) := by omega
        rw [e2]
        split_ifs <;> omega
      · have e2 : (freq - 100000 + 18446744073709551616 -
            100000 * ((temp - max_temp) / 4)) % 18446744073709551616 =
            freq - 100000 - 100000 * ((temp - max_temp) / 4) := by omega
        rw [e2]
        split_ifs <;> omega
  · simp only [increaseAdjust, u64add, STEP_FREQ, U64MOD]
    split_ifs <;> omega

/-- Claim C4 witness: monotonicity applied at `freq = 2500000`, `temp = 92`,
`threshold = 70`, bounds `[1000000, 3000000]`. -/
theorem adjustments_monotone_witness :
    decreaseAdjust 2500000 92 70 1000000 3000000 ≤ 2500000 ∧
    2500000 ≤ increaseAdjust 2500000 3000000 :=
  adjustments_monotone 2500000 92 70 1000000 3000000
    (by norm_num) (by norm_num) (by norm_num) (by norm_num) (by norm_num)

/-- Claim C5, counterexample: the claim asserts the increase adjustment adds
one `STEP_FREQ` and clamps down to `max`, so that from `freq = max` it leaves
the value at `max`.  With `max = 2^64 - 1` the wrapping addition overflows to
`99999`, which is not clamped (it is below `max`), so the result is not
`max`. -/
theorem increase_ceiling_counterexample :
    increaseAdjust 18446744073709551615 18446744073709551615 ≠
      18446744073709551615 := by
  simp only [increaseAdjust, u64add, STEP_FREQ, U64MOD]
  norm_num

/-- Claim C5 (amended): provided `max_freq + STEP_FREQ` does not overflow
`u64`, the increase mutation is exactly `min (freq + STEP_FREQ) max_freq`
(one step up, clamped down to at most `max_freq`), and consequently from
`freq = max_freq` it leaves the frequency at `max_freq`. -/
theorem increase_step_clamp
    (freq max_freq : Nat) (hhi : freq ≤ max_freq)
    (hmax : max_freq + 100000 < 18446744073709551616) :
    increaseAdjust freq max_freq = Nat.min (freq + STEP_FREQ) max_freq ∧
    increaseAdjust max_freq max_freq = max_freq := by
  constructor
  · simp only [increaseAdjust, u64add, STEP_FREQ, U64MOD]
    rw [natMin_ite]
    split_ifs <;> omega
  · simp only [increaseAdjust, u64add, STEP_FREQ, U64MOD]
    split_ifs <;> omega

/-- Claim C5 witness: the step-and-clamp description applied at
`freq = max_freq = 3000000`. -/
theorem increase_step_clamp_witness :
    increaseAdjust 3000000 3000000 = Nat.min (3000000 + STEP_FREQ) 3000000 ∧
    increaseAdjust 3000000 3000000 = 3000000 :=
  increase_step_clamp 3000000 3000000 (by norm_num) (by norm_num)

/-- Claim C3, counterexample: with threshold `3`, the claim's dead band
`T - 5 ≤ t ≤ T` contains the sampled temperature `2`, yet the source's
increase trigger compares against the wrapping `u64` value `3 - 5 = 2^64 - 2`,
so with the frequency below `max` an increase adjustment is scheduled on that
tick. -/
theorem hysteresis_counterexample :
    (3 : Nat) - 5 ≤ 2 ∧ (2 : Nat) ≤ 3 ∧
    tickDecision 2 3 500000 0 1000000 = Decision.increase := by
  refine ⟨by norm_num, by norm_num, ?_⟩
  decide

/-- Claim C3 (amended): for every threshold `max_temp` with `5 ≤ max_temp`
(so that `max_temp - 5` cannot wrap) and every sampled temperature in the dead
band `[max_temp - 5, max_temp]`, a tick schedules no adjustment, regardless of
the current frequency and the bounds. -/
theorem hysteresis_dead_band
    (temp max_temp freq min_freq max_freq : Nat)
    (h5 : 5 ≤ max_temp) (hw : max_temp < 18446744073709551616)
    (hlo : max_temp - 5 ≤ temp) (hhi : temp ≤ max_temp) :
    tickDecision temp max_temp freq min_freq max_freq = Decision.hold := by
  simp only [tickDecision, u64sub, U64MOD]
  split_ifs with h1 h2
  · exact absurd h1.1 (by omega)
  · exact absurd h2.1 (by omega)
  · rfl

/-- Claim C3 witness: the dead band theorem applied at threshold `70`,
temperature `67`, frequency `2000000`, bounds `[1000000, 3000000]`. -/
theorem hysteresis_dead_band_witness :
    tickDecision 67 70 2000000 1000000 3000000 = Decision.hold :=
  hysteresis_dead_band 67 70 2000000 1000000 3000000
    (by norm_num) (by norm_num) (by norm_num) (by norm_num)

/-- Claim C6, counterexample: the claim asserts the sampler returns the
maximum normalized reading across all present sources, terminating only when
zero sources are present or readable.  With one present, readable source whose
raw reading is `500` (normalized maximum `0`), the source terminates the
process instead of returning that maximum. -/
theorem get_temp_counterexample :
    (List.filterMap id [some (500 : Nat)]).length = 1 ∧
    maxOfPresent [some 500] = 0 ∧
    get_temp [some 500] = Except.error Termination.exit1 :=
  ⟨rfl, rfl, rfl⟩

/-- Claim C6 (amended): the sampler returns the maximum normalized (`/ 1000`)
reading across all present sources whenever that maximum is positive, and
terminates the process with `process::exit(1)` (a non-zero status, never a
default temperature) whenever the maximum is `0` — in particular when zero
sources are present. -/
theorem get_temp_max_or_exit (readings : List (Option Nat)) :
    (0 < maxOfPresent readings →
      get_temp readings = Except.ok (maxOfPresent readings)) ∧
    (maxOfPresent readings = 0 →
      get_temp readings = Except.error Termination.exit1) := by
  have h := getTempLoop_eq_max readings 0
  constructor
  · intro h0
    simp only [get_temp, h]
    rw [natMax_zero_left]
    rw [if_neg (by omega)]
  · intro h0
    simp only [get_temp, h]
    rw [natMax_zero_left, if_pos h0]

/-- Claim C6 witness: the sampler applied to two present sources (45.0 and
52.0 degrees, raw thousandths) and one absent candidate returns the maximum. -/
theorem get_temp_max_or_exit_witness :
    get_temp [some 45000, none, some 52000] =
      Except.ok (maxOfPresent [some 45000, none, some 52000]) :=
  (get_temp_max_or_exit [some 45000, none, some 52000]).1 (by decide)

/-- Claim C7: a decrease or increase task whose `try_lock` on `FREQUENCY`
fails performs no mutation of the shared frequency and makes no actuator
(`set_freq`) call: the frequency is returned unchanged and the list of
actuator invocations is empty. -/
theorem lock_contention_no_mutation
    (freq temp max_temp min_freq max_freq : Nat) :
    decreaseTask false freq temp max_temp min_freq max_freq = (freq, []) ∧
    increaseTask false freq max_freq = (freq, []) :=
  ⟨rfl, rfl⟩

/-- Claim C8, counterexample: the claim asserts exit code 1 on every fatal
condition, including an unreadable or non-numeric bounds file; but
`parse_int_file` reaches that condition through `.unwrap()`, i.e. a panic,
whose process exit status is 101, not 1. -/
theorem exit_code_counterexample :
    parse_int_file none = Except.error Termination.panicked ∧
    Termination.code Termination.panicked ≠ 1 :=
  ⟨rfl, by decide⟩

/-- Claim C8 (amended): every fatal condition terminates the process with a
non-zero status, but not uniformly with code 1: bad or missing CLI argument
and a missing temperature source use `process::exit(1)`; an unreadable or
non-numeric bounds file and a failed per-CPU frequency write panic (status
101).  No termination path has status 0 (the main loop is infinite). -/
theorem fatal_conditions_nonzero_exit :
    (∀ nargs arg, nargs ≠ 2 →
      parseArgs nargs arg = Except.error Termination.exit1) ∧
    parseArgs 2 none = Except.error Termination.exit1 ∧
    parse_int_file none = Except.error Termination.panicked ∧
    (∀ readings, maxOfPresent readings = 0 →
      get_temp readings = Except.error Termination.exit1) ∧
    (∀ ncpus writeOk freq, (∃ c ∈ List.range ncpus, writeOk c = false) →
      set_freq ncpus writeOk freq = Except.error Termination.panicked) ∧
    (∀ t : Termination, t.code ≠ 0) := by
  refine ⟨?_, rfl, rfl, ?_, ?_, ?_⟩
  · intro nargs arg h
    simp [parseArgs, h]
  · intro readings h0
    have h := getTempLoop_eq_max readings 0
    simp only [get_temp, h]
    rw [natMax_zero_left, if_pos h0]
  · intro ncpus writeOk freq h
    exact setFreqLoop_fail writeOk freq (List.range ncpus) h
  · intro t
    cases t <;> simp [Termination.code]

/-- Claim C8 witness: the fatal-path theorem applied to a three-argument
invocation, an empty sensor list, and a two-CPU actuator whose second write
fails. -/
theorem fatal_conditions_nonzero_exit_witness :
    parseArgs 3 (some 70) = Except.error Termination.exit1 ∧
    get_temp [] = Except.error Termination.exit1 ∧
    set_freq 2 (fun c => c == 0) 500000 = Except.error Termination.panicked :=
  ⟨fatal_conditions_nonzero_exit.1 3 (some 70) (by decide),
   fatal_conditions_nonzero_exit.2.2.2.1 [] rfl,
   fatal_conditions_nonzero_exit.2.2.2.2.1 2 (fun c => c == 0) 500000
     ⟨1, by decide, rfl⟩⟩

/-- Claim C9: whenever every present sensor source reads below `1000`
(i.e. below one whole degree before the `/ 1000` normalization), the sampler
terminates the process exactly as it does with no sensor at all, even though
sources are present and readable. -/
theorem low_sensor_readings_exit (readings : List (Option Nat))
    (h : ∀ v ∈ readings.filterMap id, v < 1000) :
    get_temp readings = Except.error Termination.exit1 ∧
    get_temp readings = get_temp [] := by
  have hm : maxOfPresent readings = 0 := by
    simp only [maxOfPresent]
    exact foldr_max_zero (readings.filterMap id) h
  have hl := getTempLoop_eq_max readings 0
  constructor
  · simp only [get_temp, hl]
    rw [natMax_zero_left, if_pos hm]
  · simp only [get_temp, hl]
    rw [natMax_zero_left, if_pos hm]
    rfl

/-- Claim C9 witness: three candidates, two present with readings `999` and
`0` thousandths of a degree — the sampler terminates as with no sensors. -/
theorem low_sensor_readings_exit_witness :
    get_temp [some 999, none, some 0] = Except.error Termination.exit1 ∧
    get_temp [some 999, none, some 0] = get_temp [] :=
  low_sensor_readings_exit [some 999, none, some 0] (by decide)

/-- Claim C10: at startup, with both bounds files readable and all per-CPU
writes succeeding, the shared frequency is initialized to the hardware
maximum `mx` and that maximum is immediately written to every logical CPU's
`scaling_max_freq` file.  The model of the startup sequence takes no
temperature input at all, so the behaviour is independent of any temperature
reading. -/
theorem startup_writes_max (mn mx ncpus : Nat) (writeOk : Nat → Bool)
    (h : ∀ c ∈ List.range ncpus, writeOk c = true) :
    startup (some mn) (some mx) ncpus writeOk =
      Except.ok (mx, (List.range ncpus).map fun c => (c, mx)) := by
  have hw := setFreqLoop_all_ok writeOk mx (List.range ncpus) h
  simp [startup, parse_int_file, set_freq, hw]

/-- Claim C10 witness: startup with bounds `1000000`/`3000000` on two CPUs
writes `3000000` to CPUs 0 and 1 and initializes the state to `3000000`. -/
theorem startup_writes_max_witness :
    startup (some 1000000) (some 3000000) 2 (fun _ => true) =
      Except.ok (3000000, (List.range 2).map fun c => (c, 3000000)) :=
  startup_writes_max 1000000 3000000 2 (fun _ => true) (fun _ _ => rfl)
